import Mathlib

/-!
Verification of the ratbagd-rs daemon core.

This file gives a shallow embedding, in Lean 4, of the parts of the
`ratbagd-rs` source that the verified properties talk about:

* the HID++ framing layer (`src/ratbagd-rs/src/driver/hidpp.rs`):
  report parsing, error detection;
* the transport matching primitive (`DeviceIo::request` in
  `src/ratbagd-rs/src/driver/mod.rs`), modelled over explicit finite
  streams of inbound frames per retry attempt;
* the HID++ 2.0 driver (`src/ratbagd-rs/src/driver/hidpp20.rs`):
  feature discovery, button-binding encoding, sector reads,
  sector CRC verification, the EEPROM commit write phase;
* the DBus profile property setters (`src/ratbagd-rs/src/dbus/profile.rs`)
  and the device actor's commit step (`src/ratbagd-rs/src/actor.rs`).

Bytes are modelled as `Nat` values (with `% 256` / `% 65536` reductions
where the Rust code performs `as u8` / `as u16` casts); byte buffers are
`List Nat`; fallible operations return `Option` / explicit result types.
-/

namespace Ratbag

/-! ## Byte-level helpers -/

/-- Big-endian combination of two bytes into a 16-bit value
(`u16::from_be_bytes([hi, lo])`). -/
def be16 (hi lo : Nat) : Nat := hi * 256 + lo

/-- Big-endian byte pair of a 16-bit value (`u16::to_be_bytes`). -/
def be16Bytes (v : Nat) : List Nat := [v / 256 % 256, v % 256]

/-- Little-endian byte pair of a 16-bit value (`u16::to_le_bytes`). -/
def le16Bytes (v : Nat) : List Nat := [v % 256, v / 256 % 256]

/-! ## HID++ framing (`src/ratbagd-rs/src/driver/hidpp.rs`) -/

/-- `REPORT_ID_SHORT`: leading byte of a 7-byte HID++ short report. -/
def REPORT_ID_SHORT : Nat := 0x10

/-- `REPORT_ID_LONG`: leading byte of a 20-byte HID++ long report. -/
def REPORT_ID_LONG : Nat := 0x11

/-- `HIDPP10_ERROR`: error sub-id carried by short reports. -/
def HIDPP10_ERROR : Nat := 0x8F

/-- `HIDPP20_ERROR`: error sub-id carried by long reports. -/
def HIDPP20_ERROR : Nat := 0xFF

/-- `ROOT_FEATURE_INDEX`: the Root feature is always at index 0. -/
def ROOT_FEATURE_INDEX : Nat := 0x00

/-- A parsed HID++ report (`enum HidppReport`).  The `params` field holds
3 bytes for a short report and 16 bytes for a long report. -/
inductive HidppReport : Type
  | short (device_index sub_id : Nat) (params : List Nat)
  | long (device_index sub_id address : Nat) (params : List Nat)
  deriving DecidableEq, Repr

namespace HidppReport

/-- `HidppReport::parse`: dispatch on the leading byte; a buffer shorter
than 7 bytes, a long-marker buffer shorter than 20 bytes, or any other
leading byte parses to `none`. -/
def parse (buf : List Nat) : Option HidppReport :=
  if buf.length < 7 then
    none
  else if buf.headI = REPORT_ID_SHORT then
    some (.short (buf.getD 1 0) (buf.getD 2 0)
      [buf.getD 3 0, buf.getD 4 0, buf.getD 5 0])
  else if buf.headI = REPORT_ID_LONG ∧ 20 ≤ buf.length then
    some (.long (buf.getD 1 0) (buf.getD 2 0) (buf.getD 3 0)
      ((buf.drop 4).take 16))
  else
    none

/-- `HidppReport::is_error`: a short report with sub-id `0x8F`, or a long
report with sub-id `0xFF`. -/
def is_error : HidppReport → Bool
  | .short _ sub_id _ => sub_id = HIDPP10_ERROR
  | .long _ sub_id _ _ => sub_id = HIDPP20_ERROR

/-- `HidppReport::matches_hidpp20`: a long report whose device index and
sub-id (feature index position) match the expected values. -/
def matches_hidpp20 (r : HidppReport) (expected_dev expected_feature : Nat) : Bool :=
  match r with
  | .long device_index sub_id _ _ =>
      device_index = expected_dev ∧ sub_id = expected_feature
  | _ => false

end HidppReport

/-! ## Transport matching primitive (`DeviceIo::request`,
`src/ratbagd-rs/src/driver/mod.rs`)

The Rust read loop is bounded by a time budget: within one attempt it
keeps reading inbound buffers until either the matcher accepts one or
the attempt's deadline (or a single-read timeout) expires.  The shallow
embedding represents one attempt by the finite list of buffers that
arrive within that attempt's time budget: exhausting the list models the
deadline expiring.  A full call is a list of such per-attempt streams,
one per attempt (`max_attempts` is the length of that list). -/

/-- The result of `DeviceIo::request`: either a matched value, or the
`DriverError::Timeout { attempts }` error. -/
inductive ReqResult (T : Type) : Type
  | ok (t : T)
  | timeout (attempts : Nat)
  deriving DecidableEq, Repr

/-- One attempt's read loop: each inbound buffer that is non-empty and
whose leading byte is neither `0x10` nor `0x11` is discarded without
being shown to the matcher; otherwise the matcher decides.  Reaching the
end of the stream models the attempt's deadline expiring. -/
def attemptLoop {T : Type} (matcher : List Nat → Option T) :
    List (List Nat) → Option T
  | [] => none
  | buf :: rest =>
    if 0 < buf.length ∧ buf.headI ≠ REPORT_ID_SHORT ∧ buf.headI ≠ REPORT_ID_LONG then
      attemptLoop matcher rest
    else
      match matcher buf with
      | some r => some r
      | none => attemptLoop matcher rest

/-- Run the per-attempt loops in order, stopping at the first match. -/
def runAttempts {T : Type} (matcher : List Nat → Option T) :
    List (List (List Nat)) → Option T
  | [] => none
  | s :: rest =>
    match attemptLoop matcher s with
    | some r => some r
    | none => runAttempts matcher rest

/-- `DeviceIo::request`: write the report, run the timed read loop, retry
up to `max_attempts` times (= `streams.length` here, one inbound stream
per attempt), and fail with `Timeout { attempts: max_attempts }` when no
attempt produced a match. -/
def request {T : Type} (matcher : List Nat → Option T)
    (streams : List (List (List Nat))) : ReqResult T :=
  match runAttempts matcher streams with
  | some r => .ok r
  | none => .timeout streams.length

/-! ## HID++ 2.0 feature discovery (`src/ratbagd-rs/src/driver/hidpp20.rs`) -/

/-- `PAGE_DEVICE_NAME` feature page. -/
def PAGE_DEVICE_NAME : Nat := 0x0005

/-- `PAGE_SPECIAL_KEYS_BUTTONS` feature page. -/
def PAGE_SPECIAL_KEYS_BUTTONS : Nat := 0x1B04

/-- `PAGE_ADJUSTABLE_DPI` feature page. -/
def PAGE_ADJUSTABLE_DPI : Nat := 0x2201

/-- `PAGE_ADJUSTABLE_REPORT_RATE` feature page. -/
def PAGE_ADJUSTABLE_REPORT_RATE : Nat := 0x8060

/-- `PAGE_COLOR_LED_EFFECTS` feature page. -/
def PAGE_COLOR_LED_EFFECTS : Nat := 0x8070

/-- `PAGE_RGB_EFFECTS` feature page. -/
def PAGE_RGB_EFFECTS : Nat := 0x8071

/-- `PAGE_ONBOARD_PROFILES` feature page. -/
def PAGE_ONBOARD_PROFILES : Nat := 0x8100

/-- Modelled from the spec: `HidppReport::hidpp20_error_code` is called by
`hidpp20.rs` but defined in the full `hidpp.rs`, which is not under `src/`
(the copy under `src/` is a reduced version without it).  Per spec §4.3 an
in-protocol error is a short frame carrying the reserved error sub-id
(`0x8F`) or a long frame carrying the reserved error sub-id (`0xFF`) at
the position otherwise used for a feature index; the reply names the
feature the request addressed and carries a numeric error code.  The
method returns that code when the reply is such an error addressed to the
given device and feature index. -/
def HidppReport.hidpp20_error_code (r : HidppReport) (dev feat : Nat) : Option Nat :=
  match r with
  | .short device_index sub_id params =>
      if device_index = dev ∧ sub_id = HIDPP10_ERROR ∧ params.headI = feat then
        some (params.getD 2 0)
      else none
  | .long device_index sub_id address params =>
      if device_index = dev ∧ sub_id = HIDPP20_ERROR ∧ address = feat then
        some (params.getD 1 0)
      else none

/-- The response matcher built inside `Hidpp20Driver::get_feature_index`,
applied to an already-parsed report: an error reply from the Root feature
means "page unsupported" (`some none`); a matching Long or Short reply
yields its first parameter byte as the feature index, with index `0`
translated to "unsupported". -/
def gfiMatchReport (dev : Nat) (report : HidppReport) : Option (Option Nat) :=
  if (report.hidpp20_error_code dev ROOT_FEATURE_INDEX).isSome = true
      ∨ report.is_error = true then
    some none
  else
    match report with
    | .long device_index sub_id _ params =>
        if device_index = dev ∧ sub_id = ROOT_FEATURE_INDEX then
          some (if params.headI = 0 then none else some params.headI)
        else none
    | .short device_index sub_id params =>
        if device_index = dev ∧ sub_id = ROOT_FEATURE_INDEX then
          some (if params.headI = 0 then none else some params.headI)
        else none

/-- The full `get_feature_index` matcher over raw buffers: parse first
(`HidppReport::parse(buf)?`), then dispatch on the report. -/
def gfiMatcher (dev : Nat) (buf : List Nat) : Option (Option Nat) :=
  (HidppReport.parse buf).bind (gfiMatchReport dev)

/-- `Hidpp20Driver::get_feature_index` as a whole: issue the Root-feature
lookup through the matching primitive.  A `timeout` models the
`Err`/context path; `ok v` models `Ok(v)`. -/
def getFeatureIndexModel (dev : Nat) (streams : List (List (List Nat))) :
    ReqResult (Option Nat) :=
  request (gfiMatcher dev) streams

/-- `struct FeatureMap`: optional runtime index per known capability page. -/
structure FeatureMap where
  adjustable_dpi : Option Nat
  special_keys : Option Nat
  onboard_profiles : Option Nat
  color_led_effects : Option Nat
  rgb_effects : Option Nat
  report_rate : Option Nat
  device_name : Option Nat
  deriving DecidableEq, Repr

/-- `FeatureMap::default()`: every capability starts out unsupported. -/
def FeatureMap.empty : FeatureMap :=
  ⟨none, none, none, none, none, none, none⟩

/-- `FeatureMap::insert`: store a discovered feature index by page id;
unknown pages are ignored. -/
def FeatureMap.insert (fm : FeatureMap) (page index : Nat) : FeatureMap :=
  if page = PAGE_ADJUSTABLE_DPI then { fm with adjustable_dpi := some index }
  else if page = PAGE_SPECIAL_KEYS_BUTTONS then { fm with special_keys := some index }
  else if page = PAGE_ONBOARD_PROFILES then { fm with onboard_profiles := some index }
  else if page = PAGE_COLOR_LED_EFFECTS then { fm with color_led_effects := some index }
  else if page = PAGE_RGB_EFFECTS then { fm with rgb_effects := some index }
  else if page = PAGE_ADJUSTABLE_REPORT_RATE then { fm with report_rate := some index }
  else if page = PAGE_DEVICE_NAME then { fm with device_name := some index }
  else fm

/-- The fixed capability table `FEATURE_QUERIES` that
`Hidpp20Driver::discover_features` walks, in source order. -/
def FEATURE_QUERIES : List Nat :=
  [PAGE_ADJUSTABLE_DPI, PAGE_SPECIAL_KEYS_BUTTONS, PAGE_ONBOARD_PROFILES,
   PAGE_COLOR_LED_EFFECTS, PAGE_RGB_EFFECTS, PAGE_ADJUSTABLE_REPORT_RATE,
   PAGE_DEVICE_NAME]

/-- One iteration of the `discover_features` loop: a successful lookup
(`Ok(Some(idx))`) caches the index; an unsupported page (`Ok(None)`) or a
failed query leaves the map untouched.  The second component of the pair
is the per-attempt inbound stream set for this page's lookup. -/
def discoverStep (dev : Nat) (fm : FeatureMap)
    (pq : Nat × List (List (List Nat))) : FeatureMap :=
  match getFeatureIndexModel dev pq.2 with
  | .ok (some idx) => fm.insert pq.1 idx
  | _ => fm

/-- `Hidpp20Driver::discover_features`: fold the lookup over the fixed
capability table, pairing each page with the inbound frames its lookup
request observes. -/
def discoverFeatures (dev : Nat) (pageStreams : List (List (List (List Nat))))
    (fm : FeatureMap) : FeatureMap :=
  (FEATURE_QUERIES.zip pageStreams).foldl (discoverStep dev) fm

/-- No field of the map holds the reserved run-time index `0`. -/
def FeatureMap.noZero (fm : FeatureMap) : Prop :=
  fm.adjustable_dpi ≠ some 0 ∧ fm.special_keys ≠ some 0 ∧
  fm.onboard_profiles ≠ some 0 ∧ fm.color_led_effects ≠ some 0 ∧
  fm.rgb_effects ≠ some 0 ∧ fm.report_rate ≠ some 0 ∧ fm.device_name ≠ some 0

/-! ## Button bindings (`src/ratbagd-rs/src/driver/hidpp20.rs` and
`src/ratbagd-rs/src/device.rs`) -/

/-- `enum ActionType` from `device.rs`.  The Rust variants are `None`,
`Button`, `Special`, `Key`, `Macro`, `Unknown`; the macro variant is
spelled `mcr` here because of Lean keyword restrictions. -/
inductive ActionType : Type
  | noAction
  | button
  | special
  | key
  | mcr
  | unknown
  deriving DecidableEq, Repr

/-- Modelled from the spec: `BUTTON_TYPE_MACRO` lives in the full
`hidpp.rs`, which is not under `src/`; spec §4.4 describes the 4-byte
binding record (type byte, subtype byte, 2-byte control/macro id).  The
byte values follow the legacy C driver's table referenced by the
comments in `hidpp20.rs`. -/
def BUTTON_TYPE_MCR : Nat := 0x00

/-- Modelled from the spec: `BUTTON_TYPE_HID` (see `BUTTON_TYPE_MCR`). -/
def BUTTON_TYPE_HID : Nat := 0x80

/-- Modelled from the spec: `BUTTON_TYPE_SPECIAL` (see `BUTTON_TYPE_MCR`). -/
def BUTTON_TYPE_SPECIAL : Nat := 0x90

/-- Modelled from the spec: `BUTTON_TYPE_DISABLED` (see `BUTTON_TYPE_MCR`). -/
def BUTTON_TYPE_DISABLED : Nat := 0xFF

/-- Modelled from the spec: `BUTTON_SUBTYPE_MOUSE` (see `BUTTON_TYPE_MCR`). -/
def BUTTON_SUBTYPE_MOUSE : Nat := 0x01

/-- Modelled from the spec: `BUTTON_SUBTYPE_KEYBOARD` (see `BUTTON_TYPE_MCR`). -/
def BUTTON_SUBTYPE_KEYBOARD : Nat := 0x02

/-- Modelled from the spec: `BUTTON_SUBTYPE_CONSUMER` (see `BUTTON_TYPE_MCR`). -/
def BUTTON_SUBTYPE_CONSUMER : Nat := 0x03

/-- `struct Hidpp20ButtonBinding` (4 bytes).  `control_id` mirrors the Rust
field `control_id_or_macro_id` (2 bytes). -/
structure Hidpp20ButtonBinding where
  button_type : Nat
  sub_type : Nat
  control_id : List Nat
  deriving DecidableEq, Repr

/-- `Hidpp20ButtonBinding::from_action`: encode an IPC-level action into
the 4-byte EEPROM record.  A mouse button `n` (1-based, `1..=16`) becomes
the big-endian bit mask `1 << (n-1)`; out-of-range button numbers encode
as mask 0; the other action kinds store their mapping value little-endian
(`as u16`). -/
def Hidpp20ButtonBinding.from_action (action : ActionType) (mapping_value : Nat) :
    Hidpp20ButtonBinding :=
  match action with
  | .mcr =>
      { button_type := BUTTON_TYPE_MCR, sub_type := 0,
        control_id := le16Bytes (mapping_value % 65536) }
  | .button =>
      { button_type := BUTTON_TYPE_HID, sub_type := BUTTON_SUBTYPE_MOUSE,
        control_id := be16Bytes
          (if 0 < mapping_value ∧ mapping_value ≤ 16
            then 2 ^ (mapping_value - 1) else 0) }
  | .key =>
      { button_type := BUTTON_TYPE_HID, sub_type := BUTTON_SUBTYPE_KEYBOARD,
        control_id := le16Bytes (mapping_value % 65536) }
  | .special =>
      { button_type := BUTTON_TYPE_SPECIAL, sub_type := 0,
        control_id := le16Bytes (mapping_value % 65536) }
  | _ =>
      { button_type := BUTTON_TYPE_DISABLED, sub_type := 0,
        control_id := le16Bytes 0 }

/-- `Hidpp20ButtonBinding::into_bytes`. -/
def Hidpp20ButtonBinding.into_bytes (b : Hidpp20ButtonBinding) : List Nat :=
  [b.button_type, b.sub_type, b.control_id.getD 0 0, b.control_id.getD 1 0]

/-- Fuel-indexed helper for `u16::trailing_zeros`: 16 division steps. -/
def tzGo : Nat → Nat → Nat
  | 0, _ => 0
  | fuel + 1, m => if m % 2 = 1 then 0 else 1 + tzGo fuel (m / 2)

/-- `u16::trailing_zeros` (returns 16 on input 0). -/
def trailingZeros16 (m : Nat) : Nat := tzGo 16 m

/-- The mouse-button decoding step of `Hidpp20Driver::load_profiles`:
a HID/mouse binding decodes its big-endian mask by bit position
(`mask.trailing_zeros() + 1`), every other binding uses the raw
big-endian value. -/
def decode_mapping_value (binding : Hidpp20ButtonBinding) : Nat :=
  if binding.button_type = BUTTON_TYPE_HID ∧
      binding.sub_type = BUTTON_SUBTYPE_MOUSE then
    if 0 < be16 (binding.control_id.getD 0 0) (binding.control_id.getD 1 0) then
      trailingZeros16
        (be16 (binding.control_id.getD 0 0) (binding.control_id.getD 1 0)) + 1
    else 0
  else
    be16 (binding.control_id.getD 0 0) (binding.control_id.getD 1 0)

/-! ## Sector reads (`Hidpp20Driver::read_sector`) -/

/-- Device-memory model of `PROFILES_FN_MEMORY_READ`: a memory-read
request at `offset` answers with the 16 sector bytes
`mem offset, …, mem (offset + 15)`. -/
def memRead16 (mem : Nat → Nat) (offset : Nat) : List Nat :=
  (List.range 16).map (fun k => mem (offset + k))

/-- Chunk size of the current `read_sector` iteration
(`(end_offset - current_offset).min(16)`). -/
def rsChunk (endOffset currentOffset : Nat) : Nat :=
  min (endOffset - currentOffset) 16

/-- Effective read offset of the current `read_sector` iteration: a final
chunk shorter than 16 bytes rewinds to `end_offset - 16` (saturating),
so the device read ends exactly at the range boundary. -/
def rsEff (endOffset currentOffset : Nat) : Nat :=
  if rsChunk endOffset currentOffset < 16 then endOffset - 16 else currentOffset

/-- The `while current_offset < end_offset` loop of
`Hidpp20Driver::read_sector`: read 16 bytes at the effective offset; when
no rewind happened keep the first `chunk_size` bytes, otherwise keep only
the trailing `chunk_size` bytes of the response. -/
def readSectorGo (mem : Nat → Nat) (endOffset currentOffset : Nat) : List Nat :=
  if h : currentOffset < endOffset then
    (if rsEff endOffset currentOffset = currentOffset then
        (memRead16 mem (rsEff endOffset currentOffset)).take
          (rsChunk endOffset currentOffset)
      else
        (memRead16 mem (rsEff endOffset currentOffset)).drop
          (16 - rsChunk endOffset currentOffset)) ++
      readSectorGo mem endOffset (currentOffset + rsChunk endOffset currentOffset)
  else []
termination_by endOffset - currentOffset
decreasing_by simp only [rsChunk]; omega

/-- `Hidpp20Driver::read_sector` over the device-memory model. -/
def read_sector (mem : Nat → Nat) (readOffset size : Nat) : List Nat :=
  readSectorGo mem (readOffset + size) readOffset

/-! ## CRC-CCITT and sector verification -/

/-- Modelled from the spec: `compute_ccitt_crc` lives in the full
`hidpp.rs`, which is not under `src/`.  Spec glossary: "CRC-CCITT: the
specific 16-bit checksum algorithm used to validate sector integrity,
stored big-endian in a sector's final two bytes."  This is the standard
CRC-16/CCITT-FALSE: initial value `0xFFFF`, polynomial `0x1021`, bytes
folded in most-significant bit first.  One bit step: shift left, xor the
polynomial when the top bit was set, reduce to 16 bits. -/
def crcBitStep (c : Nat) : Nat :=
  if c &&& 0x8000 ≠ 0 then ((c <<< 1) ^^^ 0x1021) % 65536 else (c <<< 1) % 65536

/-- Modelled from the spec (see `crcBitStep`): one byte of the CRC loop —
xor the byte into the high half, then run the inner 8-bit loop (unrolled
here). -/
def crcByteStep (c byte : Nat) : Nat :=
  crcBitStep (crcBitStep (crcBitStep (crcBitStep (crcBitStep (crcBitStep
    (crcBitStep (crcBitStep (c ^^^ (byte <<< 8)))))))))

/-- Modelled from the spec (see `crcBitStep`): `compute_ccitt_crc` over a
byte buffer. -/
def compute_ccitt_crc (data : List Nat) : Nat :=
  data.foldl crcByteStep 0xFFFF

/-- `Hidpp20Driver::verify_sector_crc`: a sector shorter than 2 bytes
cannot be validated (`false`); otherwise compare the CRC computed over
all but the last two bytes with the big-endian value stored in the last
two bytes.  The `sector` argument is only logged in the source. -/
def verify_sector_crc (sector : Nat) (data : List Nat) : Bool :=
  if data.length < 2 then false
  else
    compute_ccitt_crc (data.take (data.length - 2)) ==
      be16 (data.getD (data.length - 2) 0) (data.getD (data.length - 1) 0)

/-! ## Device state model (`src/ratbagd-rs/src/device.rs`) -/

/-- `enum Dpi`: unified or per-axis resolution value. -/
inductive Dpi : Type
  | unified (v : Nat)
  | separate (x y : Nat)
  deriving DecidableEq, Repr, Inhabited

/-- `struct Color`. -/
structure Color where
  red : Nat
  green : Nat
  blue : Nat
  deriving DecidableEq, Repr, Inhabited

/-- `struct ResolutionInfo`. -/
structure ResolutionInfo where
  index : Nat
  dpi : Dpi
  dpi_list : List Nat
  capabilities : List Nat
  is_active : Bool
  is_default : Bool
  is_disabled : Bool
  deriving DecidableEq, Repr, Inhabited

/-- `struct ButtonInfo`.  `mcr_entries` mirrors the Rust macro-entry
list field. -/
structure ButtonInfo where
  index : Nat
  action_type : ActionType
  action_types : List Nat
  mapping_value : Nat
  mcr_entries : List (Nat × Nat)
  deriving DecidableEq, Repr

/-- `struct LedInfo`. -/
structure LedInfo where
  index : Nat
  mode : Nat
  modes : List Nat
  color : Color
  color_depth : Nat
  effect_duration : Nat
  brightness : Nat
  deriving DecidableEq, Repr, Inhabited

/-- `struct ProfileInfo`. -/
structure ProfileInfo where
  index : Nat
  name : String
  is_active : Bool
  is_enabled : Bool
  is_dirty : Bool
  report_rate : Nat
  report_rates : List Nat
  angle_snapping : Int
  debounce : Int
  debounces : List Nat
  resolutions : List ResolutionInfo
  buttons : List ButtonInfo
  leds : List LedInfo
  deriving DecidableEq, Repr

/-- `struct DeviceInfo`. -/
structure DeviceInfo where
  sysname : String
  name : String
  model : String
  firmware_version : String
  profiles : List ProfileInfo
  deriving DecidableEq, Repr

instance : Inhabited ButtonInfo :=
  ⟨⟨0, .noAction, [], 0, []⟩⟩

instance : Inhabited ProfileInfo :=
  ⟨⟨0, "", false, true, false, 0, [], 0, 0, [], [], [], []⟩⟩

/-! ## IPC-layer profile setters (`src/ratbagd-rs/src/dbus/profile.rs`)

Each DBus property setter takes the write lock on the shared
`ProfileInfo`, updates the field, and sets `is_dirty = true`.  They are
modelled as pure state transformers on `ProfileInfo`. -/

namespace RatbagProfile

/-- `RatbagProfile::set_name`. -/
def set_name (p : ProfileInfo) (name : String) : ProfileInfo :=
  { p with name := name, is_dirty := true }

/-- `RatbagProfile::set_disabled`. -/
def set_disabled (p : ProfileInfo) (disabled : Bool) : ProfileInfo :=
  { p with is_enabled := !disabled, is_dirty := true }

/-- `RatbagProfile::set_angle_snapping`. -/
def set_angle_snapping (p : ProfileInfo) (value : Int) : ProfileInfo :=
  { p with angle_snapping := value, is_dirty := true }

/-- `RatbagProfile::set_debounce`. -/
def set_debounce (p : ProfileInfo) (value : Int) : ProfileInfo :=
  { p with debounce := value, is_dirty := true }

/-- `RatbagProfile::set_report_rate`. -/
def set_report_rate (p : ProfileInfo) (rate : Nat) : ProfileInfo :=
  { p with report_rate := rate, is_dirty := true }

/-- `RatbagProfile::set_active`. -/
def set_active (p : ProfileInfo) : ProfileInfo :=
  { p with is_active := true, is_dirty := true }

end RatbagProfile

/-! ## HID++ 2.0 onboard-profile commit
(`Hidpp20Driver::commit`, `src/ratbagd-rs/src/driver/hidpp20.rs`)

The EEPROM write phase is modelled as a pure function producing the
ordered trace of set-mode and sector-write operations the driver issues,
parametrised by oracles for the sector reads (`readRes`, `none` = read
failed, replaced by an all-`0xFF` buffer) and for the outcome of each
successive `write_sector` call (`writeOk k` = the `k`-th write call, in
issue order, succeeds after its internal retries). -/

/-- `struct Hidpp20OnboardProfilesInfo` (with `sector_size` already
decoded from its big-endian byte pair). -/
structure OnboardInfo where
  memory_model : Nat
  profile_format_id : Nat
  mcr_format_id : Nat
  profile_count : Nat
  profile_count_oob : Nat
  button_count : Nat
  sector_count : Nat
  sector_size : Nat
  mechanical_layout : Nat
  deriving DecidableEq, Repr

/-- `ONBOARD_MODE_ONBOARD` for `PROFILES_FN_SET_MODE`. -/
def ONBOARD_MODE_ONBOARD : Nat := 0x01

/-- `ONBOARD_MODE_HOST` for `PROFILES_FN_SET_MODE`. -/
def ONBOARD_MODE_HOST : Nat := 0x02

/-- Write a byte list into `data` starting at `off` (in-bounds positions
only; `List.set` ignores out-of-range indices). -/
def writeBytes (data : List Nat) (off : Nat) (bytes : List Nat) : List Nat :=
  bytes.enum.foldl (fun d iv => d.set (off + iv.1) iv.2) data

/-- `profile_data.resize(sector_size, 0xFF)` when the read returned fewer
bytes than a full sector. -/
def padTo (n : Nat) (raw : List Nat) : List Nat :=
  if raw.length < n then raw ++ List.replicate (n - raw.length) 0xFF else raw

/-- Commit patch step 1: report rate stored at byte 0 as ms-interval. -/
def patchReportRate (p : ProfileInfo) (data : List Nat) : List Nat :=
  if 0 < p.report_rate then data.set 0 ((1000 / p.report_rate) % 256) else data

/-- Commit patch step 2: default-DPI index stored at byte 1. -/
def patchDefaultDpiIdx (p : ProfileInfo) (data : List Nat) : List Nat :=
  match p.resolutions.findIdx? (fun r => r.is_default) with
  | some def_idx => data.set 1 (def_idx % 256)
  | none => data

/-- Commit patch step 3, one resolution: unified DPI values are stored as
little-endian `u16` at bytes `3 + 2i`. -/
def patchDpiStep (data : List Nat) (ir : Nat × ResolutionInfo) : List Nat :=
  match ir.2.dpi with
  | .unified val =>
      (data.set (3 + ir.1 * 2) (val % 256)).set (3 + ir.1 * 2 + 1) (val / 256 % 256)
  | _ => data

/-- Commit patch step 3: the first five resolutions. -/
def patchDpiList (p : ProfileInfo) (data : List Nat) : List Nat :=
  (p.resolutions.enum.take 5).foldl patchDpiStep data

/-- Commit patch step 4, one button: 4-byte binding at offset `32 + 4i`,
guarded by the button limit and the sector length. -/
def patchButtonsStep (maxButtons : Nat) (data : List Nat) (btn : ButtonInfo) :
    List Nat :=
  if btn.index < maxButtons ∧ 32 + btn.index * 4 + 4 ≤ data.length then
    writeBytes data (32 + btn.index * 4)
      (Hidpp20ButtonBinding.from_action btn.action_type btn.mapping_value).into_bytes
  else data

/-- Commit patch step 4: all buttons of the profile. -/
def patchButtons (desc : OnboardInfo) (p : ProfileInfo) (data : List Nat) :
    List Nat :=
  p.buttons.foldl (patchButtonsStep (min desc.button_count 16)) data

/-- Commit patch step 5: recompute the CRC over all but the last two
bytes and store it big-endian in the last two bytes. -/
def patchCrc (data : List Nat) : List Nat :=
  writeBytes data (data.length - 2)
    (be16Bytes (compute_ccitt_crc (data.take (data.length - 2))))

/-- The full per-profile sector patch of `Hidpp20Driver::commit`
(steps 1–5 applied to the freshly read — or `0xFF`-filled — sector). -/
def patchProfileData (desc : OnboardInfo) (p : ProfileInfo) (raw : List Nat) :
    List Nat :=
  patchCrc (patchButtons desc p (patchDpiList p (patchDefaultDpiIdx p
    (patchReportRate p (padTo desc.sector_size raw)))))

/-- One hardware operation of the commit write phase. -/
inductive CommitOp : Type
  | setMode (mode : Nat)
  | writeSector (addr : Nat) (data : List Nat)
  deriving DecidableEq, Repr

/-- Accumulator of the profile write loop: issued operations, number of
`write_sector` calls so far, `any_written`, and whether `last_err` holds
an error. -/
structure WriteLoopState where
  ops : List CommitOp
  calls : Nat
  anyWritten : Bool
  hasErr : Bool
  deriving DecidableEq, Repr

/-- One iteration of the commit profile loop: profiles that are neither
dirty nor forced by the repair flag are skipped; otherwise the sector at
`profile.index + 1` is read (or `0xFF`-filled on read failure), patched,
and written. -/
def commitProfileStep (desc : OnboardInfo) (force : Bool)
    (readRes : Nat → Option (List Nat)) (writeOk : Nat → Bool)
    (st : WriteLoopState) (p : ProfileInfo) : WriteLoopState :=
  if ¬ p.is_dirty = true ∧ ¬ force = true then st
  else
    { ops := st.ops ++ [CommitOp.writeSector ((p.index + 1) % 65536)
        (patchProfileData desc p ((readRes ((p.index + 1) % 65536)).getD
          (List.replicate desc.sector_size 0xFF)))],
      calls := st.calls + 1,
      anyWritten := st.anyWritten || writeOk st.calls,
      hasErr := st.hasErr || !writeOk st.calls }

/-- The directory-entry loop of the commit's directory rebuild: 4 bytes
per profile `[0x00, index + 1, enabled, 0x00]`, stopping when the next
record would not fit in front of the trailing CRC. -/
def dirEntriesGo (dirLen : Nat) :
    List ProfileInfo → Nat → List Nat → Nat × List Nat
  | [], pos, data => (pos, data)
  | p :: rest, pos, data =>
    if pos + 4 > dirLen - 2 then (pos, data)
    else dirEntriesGo dirLen rest (pos + 4)
      (writeBytes data pos
        [0x00, (p.index + 1) % 256, if p.is_enabled then 1 else 0, 0x00])

/-- End-of-directory marker `[0xFF, 0xFF, 0x00, 0x00]`, written when it
fits in front of the trailing CRC. -/
def dirWithMarker (pd : Nat × List Nat) : List Nat :=
  if pd.1 + 4 ≤ pd.2.length - 2 then writeBytes pd.2 pd.1 [0xFF, 0xFF, 0x00, 0x00]
  else pd.2

/-- The directory sector rebuilt by `Hidpp20Driver::commit`: entries over
an all-`0xFF` base, end marker, CRC in the last two bytes. -/
def buildDirectory (profiles : List ProfileInfo) (sectorSize : Nat) : List Nat :=
  patchCrc (dirWithMarker
    (dirEntriesGo sectorSize profiles 0 (List.replicate sectorSize 0xFF)))

/-- The directory write after the profile loop, performed only when at
least one profile sector write succeeded (`any_written`). -/
def commitDirPhase (profiles : List ProfileInfo) (desc : OnboardInfo)
    (writeOk : Nat → Bool) (st : WriteLoopState) : WriteLoopState :=
  if st.anyWritten = true then
    { ops := st.ops ++ [CommitOp.writeSector 0
        (buildDirectory profiles desc.sector_size)],
      calls := st.calls + 1,
      anyWritten := st.anyWritten,
      hasErr := st.hasErr || !writeOk st.calls }
  else st

/-- Result of the commit EEPROM phase: the issued operation trace, the new
value of `needs_eeprom_repair`, and whether the phase returned `Ok`. -/
structure CommitResult where
  ops : List CommitOp
  newRepair : Bool
  committed : Bool
  deriving DecidableEq, Repr

/-- Wrap up the write phase: the trace is bracketed by
set-mode(host) / set-mode(onboard); an error kept in `last_err` leaves the
repair flag set and fails the commit, otherwise the flag is cleared. -/
def commitFinish (st : WriteLoopState) : CommitResult :=
  { ops := CommitOp.setMode ONBOARD_MODE_HOST ::
      (st.ops ++ [CommitOp.setMode ONBOARD_MODE_ONBOARD]),
    newRepair := st.hasErr,
    committed := !st.hasErr }

/-- The EEPROM phase of `Hidpp20Driver::commit` (entered when the onboard
profiles feature is present and its descriptor is cached): set-mode(host),
write every dirty (or repair-forced) profile sector, rebuild and write the
directory when anything was written, set-mode(onboard), then decide the
repair flag and the result. -/
def commitEeprom (desc : OnboardInfo) (profiles : List ProfileInfo)
    (force : Bool) (readRes : Nat → Option (List Nat))
    (writeOk : Nat → Bool) : CommitResult :=
  commitFinish (commitDirPhase profiles desc writeOk
    (profiles.foldl (commitProfileStep desc force readRes writeOk)
      ⟨[], 0, false, false⟩))

/-- Driver-instance state relevant to commit. -/
structure Hidpp20DriverState where
  onboard_feature : Option Nat
  cached_onboard_info : Option OnboardInfo
  needs_eeprom_repair : Bool
  deriving Repr

/-- `Hidpp20Driver::commit` as seen by the actor: it receives the shared
`DeviceInfo` immutably (`info: &DeviceInfo`), runs the EEPROM phase when
the onboard-profiles feature and descriptor are available, and returns
the updated driver state plus the success flag.  The active profile's
DPI/report-rate/LED feature writes issued before the EEPROM phase touch
the device, not the shared state, and cannot fail the commit (their
errors are logged and swallowed). -/
def hidpp20Commit (st : Hidpp20DriverState) (info : DeviceInfo)
    (readRes : Nat → Option (List Nat)) (writeOk : Nat → Bool) :
    Hidpp20DriverState × Bool :=
  match st.onboard_feature, st.cached_onboard_info with
  | some _, some desc =>
      ({ st with needs_eeprom_repair :=
          (commitEeprom desc info.profiles st.needs_eeprom_repair readRes
            writeOk).newRepair },
        (commitEeprom desc info.profiles st.needs_eeprom_repair readRes
          writeOk).committed)
  | _, _ => (st, true)

/-- The actor's handling of `ActorMessage::Commit` (`DeviceActor::run`):
it takes a read lock on the shared `DeviceInfo`, passes it immutably to
`Driver::commit`, and sends the result through the reply channel.  The
shared state component of the outcome is the unmodified `info`. -/
def actorCommitStep (st : Hidpp20DriverState) (info : DeviceInfo)
    (readRes : Nat → Option (List Nat)) (writeOk : Nat → Bool) :
    DeviceInfo × Hidpp20DriverState × Bool :=
  (info, hidpp20Commit st info readRes writeOk)

/-! ## Directory loading (`Hidpp20Driver::load_profiles`) -/

/-- Per-profile addressing data derived from the directory sector, plus
the repair flag after the directory check. -/
structure LoadDirResult where
  profileAddrs : List Nat
  profileEnabled : List Bool
  repairFlag : Bool
  deriving DecidableEq, Repr

/-- The directory-entry override loop of `load_profiles`: entry `i` lives
at offset `4i` as `[addr_hi, addr_lo, enabled, _]`; the loop stops at the
end of the sector or at the `0xFFFF` sentinel, and an address of 0 keeps
the default.  `fuel` counts the remaining profile ordinals
(`profile_count - i`). -/
def dirEntryGo (root : List Nat) :
    Nat → Nat → List Nat → List Bool → List Nat × List Bool
  | 0, _, addrs, enabled => (addrs, enabled)
  | fuel + 1, i, addrs, enabled =>
    if root.length < i * 4 + 4 then (addrs, enabled)
    else if be16 (root.getD (i * 4) 0) (root.getD (i * 4 + 1) 0) = 0xFFFF then
      (addrs, enabled)
    else
      dirEntryGo root fuel (i + 1)
        (if be16 (root.getD (i * 4) 0) (root.getD (i * 4 + 1) 0) ≠ 0 then
          addrs.set i (be16 (root.getD (i * 4) 0) (root.getD (i * 4 + 1) 0))
        else addrs)
        (enabled.set i (root.getD (i * 4 + 2) 0 != 0))

/-- The directory-handling part of `Hidpp20Driver::load_profiles`: every
profile defaults to sector `ordinal + 1` and enabled; when the directory
sector passes its CRC the entries override those defaults, otherwise the
defaults stand and the repair flag is raised. -/
def load_directory (root : List Nat) (profileCount : Nat)
    (prevRepair : Bool) : LoadDirResult :=
  if verify_sector_crc 0 root = true then
    { profileAddrs :=
        (dirEntryGo root profileCount 0 ((List.range profileCount).map (· + 1))
          (List.replicate profileCount true)).1,
      profileEnabled :=
        (dirEntryGo root profileCount 0 ((List.range profileCount).map (· + 1))
          (List.replicate profileCount true)).2,
      repairFlag := prevRepair }
  else
    { profileAddrs := (List.range profileCount).map (· + 1),
      profileEnabled := List.replicate profileCount true,
      repairFlag := true }

/-- Frames that the read loop's noise filter drops: non-empty with a
leading byte that is not a HID++ report marker. -/
def isNoiseFrame (f : List Nat) : Prop :=
  0 < f.length ∧ f.headI ≠ REPORT_ID_SHORT ∧ f.headI ≠ REPORT_ID_LONG

/-- Operations that are sector writes (as opposed to mode switches). -/
def isWriteOp (op : CommitOp) : Prop :=
  ∃ a d, op = CommitOp.writeSector a d

/-- Specification-side description of the profile-sector writes issued by
the commit loop: one write per profile that is dirty or forced by the
repair flag, at sector `index + 1`, carrying the patched sector data. -/
def profileWriteOps (desc : OnboardInfo) (force : Bool)
    (readRes : Nat → Option (List Nat)) (profiles : List ProfileInfo) :
    List CommitOp :=
  (profiles.filter (fun p => p.is_dirty || force)).map
    (fun p => CommitOp.writeSector ((p.index + 1) % 65536)
      (patchProfileData desc p ((readRes ((p.index + 1) % 65536)).getD
        (List.replicate desc.sector_size 0xFF))))

end Ratbag

/-! ## Theorems -/

namespace Ratbag

theorem attemptLoop_skips_noise {T : Type} (matcher : List Nat → Option T)
    (noise : List (List Nat)) (hn : ∀ f ∈ noise, isNoiseFrame f)
    (rest : List (List Nat)) :
    attemptLoop matcher (noise ++ rest) = attemptLoop matcher rest := by
  induction noise with
  | nil => rfl
  | cons f fs ih =>
    have hf : 0 < f.length ∧ f.headI ≠ REPORT_ID_SHORT ∧ f.headI ≠ REPORT_ID_LONG :=
      hn f (List.mem_cons_self f fs)
    simp only [List.cons_append, attemptLoop]
    rw [if_pos hf]
    exact ih (fun g hg => hn g (List.mem_cons_of_mem f hg))

theorem attemptLoop_none_of_no_match {T : Type} (matcher : List Nat → Option T)
    (s : List (List Nat)) (h : ∀ f ∈ s, matcher f = none) :
    attemptLoop matcher s = none := by
  induction s with
  | nil => rfl
  | cons f fs ih =>
    have hf := h f (List.mem_cons_self f fs)
    have ih' := ih (fun g hg => h g (List.mem_cons_of_mem f hg))
    simp only [attemptLoop]
    by_cases hnoise : 0 < f.length ∧ f.headI ≠ REPORT_ID_SHORT ∧ f.headI ≠ REPORT_ID_LONG
    · rw [if_pos hnoise]; exact ih'
    · rw [if_neg hnoise, hf]; exact ih'

theorem parse_short_of {buf : List Nat} (h7 : 7 ≤ buf.length)
    (hh : buf.headI = REPORT_ID_SHORT) :
    HidppReport.parse buf = some (.short (buf.getD 1 0) (buf.getD 2 0)
      [buf.getD 3 0, buf.getD 4 0, buf.getD 5 0]) := by
  unfold HidppReport.parse
  rw [if_neg (by omega), if_pos hh]

theorem parse_long_of {buf : List Nat} (h20 : 20 ≤ buf.length)
    (hh : buf.headI = REPORT_ID_LONG) :
    HidppReport.parse buf = some (.long (buf.getD 1 0) (buf.getD 2 0) (buf.getD 3 0)
      ((buf.drop 4).take 16)) := by
  have hs : ¬ buf.headI = REPORT_ID_SHORT := by
    rw [hh]; unfold REPORT_ID_SHORT REPORT_ID_LONG; omega
  unfold HidppReport.parse
  rw [if_neg (by omega), if_neg hs, if_pos ⟨hh, h20⟩]

theorem parse_none_of {buf : List Nat}
    (h : ¬ (7 ≤ buf.length ∧ buf.headI = REPORT_ID_SHORT) ∧
         ¬ (20 ≤ buf.length ∧ buf.headI = REPORT_ID_LONG)) :
    HidppReport.parse buf = none := by
  unfold HidppReport.parse
  by_cases h7 : buf.length < 7
  · rw [if_pos h7]
  · have hs : ¬ buf.headI = REPORT_ID_SHORT := fun hh => h.1 ⟨by omega, hh⟩
    have hl : ¬ (buf.headI = REPORT_ID_LONG ∧ 20 ≤ buf.length) :=
      fun hc => h.2 ⟨hc.2, hc.1⟩
    rw [if_neg h7, if_neg hs, if_neg hl]

/-- **C9.** `HidppReport::parse` returns a `Short` report exactly when the
buffer is at least 7 bytes long with leading byte `0x10`, a `Long` report
exactly when the buffer is at least 20 bytes long with leading byte
`0x11`, and `none` (no value, not an error) in every other case. -/
theorem parse_shape_dispatch (buf : List Nat) :
    ((∃ d s p, HidppReport.parse buf = some (.short d s p)) ↔
      (7 ≤ buf.length ∧ buf.headI = REPORT_ID_SHORT)) ∧
    ((∃ d s a p, HidppReport.parse buf = some (.long d s a p)) ↔
      (20 ≤ buf.length ∧ buf.headI = REPORT_ID_LONG)) ∧
    ((¬ (7 ≤ buf.length ∧ buf.headI = REPORT_ID_SHORT) ∧
      ¬ (20 ≤ buf.length ∧ buf.headI = REPORT_ID_LONG)) →
      HidppReport.parse buf = none) := by
  have hSL : REPORT_ID_SHORT ≠ REPORT_ID_LONG := by
    unfold REPORT_ID_SHORT REPORT_ID_LONG; omega
  refine ⟨⟨?_, ?_⟩, ⟨?_, ?_⟩, parse_none_of⟩
  · rintro ⟨d, s, p, hp⟩
    by_cases hc : 7 ≤ buf.length ∧ buf.headI = REPORT_ID_SHORT
    · exact hc
    · exfalso
      by_cases hl : 20 ≤ buf.length ∧ buf.headI = REPORT_ID_LONG
      · rw [parse_long_of hl.1 hl.2] at hp
        exact HidppReport.noConfusion (Option.some.inj hp)
      · rw [parse_none_of ⟨hc, hl⟩] at hp
        cases hp
  · rintro ⟨h7, hh⟩
    exact ⟨_, _, _, parse_short_of h7 hh⟩
  · rintro ⟨d, s, a, p, hp⟩
    by_cases hl : 20 ≤ buf.length ∧ buf.headI = REPORT_ID_LONG
    · exact hl
    · exfalso
      by_cases hc : 7 ≤ buf.length ∧ buf.headI = REPORT_ID_SHORT
      · rw [parse_short_of hc.1 hc.2] at hp
        exact HidppReport.noConfusion (Option.some.inj hp)
      · rw [parse_none_of ⟨hc, hl⟩] at hp
        cases hp
  · rintro ⟨h20, hh⟩
    exact ⟨_, _, _, _, parse_long_of h20 hh⟩

/-- Witness for C9 at a concrete buffer: a 7-byte buffer led by `0x99` is
neither a short nor a long frame, so parsing yields `none`. -/
theorem parse_shape_dispatch_witness :
    HidppReport.parse [0x99, 0, 0, 0, 0, 0, 0] = none :=
  (parse_shape_dispatch [0x99, 0, 0, 0, 0, 0, 0]).2.2 (by decide)

theorem runAttempts_none_of_no_match {T : Type} (matcher : List Nat → Option T)
    (streams : List (List (List Nat)))
    (h : ∀ s ∈ streams, ∀ f ∈ s, matcher f = none) :
    runAttempts matcher streams = none := by
  induction streams with
  | nil => rfl
  | cons s rest ih =>
    have hs := attemptLoop_none_of_no_match matcher s (h s (List.mem_cons_self s rest))
    have ih' := ih (fun t ht => h t (List.mem_cons_of_mem s ht))
    simp [runAttempts, hs, ih']

theorem attemptLoop_mem_of_some {T : Type} (matcher : List Nat → Option T)
    (s : List (List Nat)) (r : T) (h : attemptLoop matcher s = some r) :
    ∃ f ∈ s, matcher f = some r := by
  induction s with
  | nil => cases h
  | cons f fs ih =>
    simp only [attemptLoop] at h
    by_cases hnoise : 0 < f.length ∧ f.headI ≠ REPORT_ID_SHORT ∧ f.headI ≠ REPORT_ID_LONG
    · rw [if_pos hnoise] at h
      obtain ⟨g, hg, hm⟩ := ih h
      exact ⟨g, List.mem_cons_of_mem f hg, hm⟩
    · rw [if_neg hnoise] at h
      cases hm : matcher f with
      | some v =>
        rw [hm] at h
        exact ⟨f, List.mem_cons_self f fs, by rw [hm, Option.some.inj h]⟩
      | none =>
        rw [hm] at h
        obtain ⟨g, hg, hmg⟩ := ih h
        exact ⟨g, List.mem_cons_of_mem f hg, hmg⟩

theorem runAttempts_mem_of_some {T : Type} (matcher : List Nat → Option T)
    (streams : List (List (List Nat))) (r : T)
    (h : runAttempts matcher streams = some r) :
    ∃ s ∈ streams, ∃ f ∈ s, matcher f = some r := by
  induction streams with
  | nil => cases h
  | cons s rest ih =>
    simp only [runAttempts] at h
    cases ha : attemptLoop matcher s with
    | some v =>
      rw [ha] at h
      obtain ⟨f, hf, hm⟩ := attemptLoop_mem_of_some matcher s v ha
      obtain rfl : v = r := Option.some.inj h
      exact ⟨s, List.mem_cons_self s rest, f, hf, hm⟩
    | none =>
      rw [ha] at h
      obtain ⟨t, ht, hrest⟩ := ih h
      exact ⟨t, List.mem_cons_of_mem s ht, hrest⟩

theorem request_mem_of_ok {T : Type} (matcher : List Nat → Option T)
    (streams : List (List (List Nat))) (r : T)
    (h : request matcher streams = .ok r) :
    ∃ s ∈ streams, ∃ f ∈ s, matcher f = some r := by
  unfold request at h
  cases hr : runAttempts matcher streams with
  | some v =>
    rw [hr] at h
    have hv : ReqResult.ok v = ReqResult.ok r := h
    obtain rfl : v = r := by cases hv; rfl
    exact runAttempts_mem_of_some matcher streams _ hr
  | none =>
    rw [hr] at h
    cases h

/-- **C1.** The matching primitive `DeviceIo::request`: (1) when, within an
attempt's time budget, a frame accepted by the matcher arrives after any
finite number of noise frames (non-empty buffers whose leading byte is not
`0x10`/`0x11`), the call returns `Ok` with the matcher's result; (2) when
no inbound buffer ever matches, the call terminates with
`DriverError::Timeout` carrying the attempt count. -/
theorem request_match_under_noise_and_timeout {T : Type} :
    (∀ (matcher : List Nat → Option T) (noise : List (List Nat))
        (frame : List Nat) (r : T) (rest : List (List Nat))
        (later : List (List (List Nat))),
      (∀ f ∈ noise, isNoiseFrame f) →
      ¬ isNoiseFrame frame →
      matcher frame = some r →
      request matcher ((noise ++ frame :: rest) :: later) = .ok r) ∧
    (∀ (matcher : List Nat → Option T) (streams : List (List (List Nat))),
      (∀ s ∈ streams, ∀ f ∈ s, matcher f = none) →
      request matcher streams = .timeout streams.length) := by
  constructor
  · intro matcher noise frame r rest later hnoise hframe hmatch
    have hframe' : ¬ (0 < frame.length ∧ frame.headI ≠ REPORT_ID_SHORT ∧
        frame.headI ≠ REPORT_ID_LONG) := hframe
    have h1 : attemptLoop matcher (noise ++ frame :: rest) = some r := by
      rw [attemptLoop_skips_noise matcher noise hnoise]
      simp only [attemptLoop]
      rw [if_neg hframe', hmatch]
    unfold request
    simp [runAttempts, h1]
  · intro matcher streams h
    unfold request
    rw [runAttempts_none_of_no_match matcher streams h]

/-- Witness for C1: two noise frames (a mouse-movement-style report and a
singleton byte) precede a long-frame reply accepted by a matcher keyed on
the `0x11` marker; and a matcher that never accepts times out after the
full attempt count (here 2). -/
theorem request_match_under_noise_and_timeout_witness :
    request (fun b => if b.headI = 0x11 then some 1 else none)
        [[[0x02, 0x00, 0x05], [0x03], [0x11, 0x00, 0x00]]] = ReqResult.ok 1 ∧
    request (fun _ : List Nat => (none : Option Nat)) [[[0x11, 5]], [[0x02]]] =
      ReqResult.timeout 2 := by
  constructor
  · exact request_match_under_noise_and_timeout.1
      (fun b => if b.headI = 0x11 then some 1 else none)
      [[0x02, 0x00, 0x05], [0x03]] [0x11, 0x00, 0x00] 1 [] []
      (by
        intro f hf
        simp only [List.mem_cons, List.not_mem_nil, or_false] at hf
        rcases hf with rfl | rfl <;>
          exact ⟨by decide, by decide, by decide⟩)
      (fun hn => hn.2.2 rfl)
      (by decide)
  · exact request_match_under_noise_and_timeout.2 _ _ (by intro s hs f hf; rfl)

theorem gfiMatchReport_no_zero (dev : Nat) (rep : HidppReport) (i : Nat)
    (h : gfiMatchReport dev rep = some (some i)) : i ≠ 0 := by
  unfold gfiMatchReport at h
  split at h
  · exact Option.noConfusion (Option.some.inj h)
  · split at h
    · split at h
      · split at h
        · exact Option.noConfusion (Option.some.inj h)
        · next hz =>
            obtain rfl := Option.some.inj (Option.some.inj h)
            exact hz
      · cases h
    · split at h
      · split at h
        · exact Option.noConfusion (Option.some.inj h)
        · next hz =>
            obtain rfl := Option.some.inj (Option.some.inj h)
            exact hz
      · cases h

theorem gfiMatcher_no_zero (dev : Nat) (buf : List Nat) (i : Nat)
    (h : gfiMatcher dev buf = some (some i)) : i ≠ 0 := by
  unfold gfiMatcher at h
  cases hp : HidppReport.parse buf with
  | none => rw [hp] at h; exact Option.noConfusion h
  | some rep => rw [hp] at h; exact gfiMatchReport_no_zero dev rep i h

theorem getFeatureIndex_no_zero (dev : Nat) (streams : List (List (List Nat)))
    (i : Nat) (h : getFeatureIndexModel dev streams = .ok (some i)) : i ≠ 0 := by
  obtain ⟨s, _, f, _, hm⟩ := request_mem_of_ok (gfiMatcher dev) streams (some i) h
  exact gfiMatcher_no_zero dev f i hm

theorem insert_preserves_noZero (fm : FeatureMap) (page idx : Nat)
    (hidx : idx ≠ 0) (h : fm.noZero) : (fm.insert page idx).noZero := by
  obtain ⟨h1, h2, h3, h4, h5, h6, h7⟩ := h
  have hs : some idx ≠ some 0 := fun hc => hidx (Option.some.inj hc)
  unfold FeatureMap.insert FeatureMap.noZero
  split_ifs <;> refine ⟨?_, ?_, ?_, ?_, ?_, ?_, ?_⟩ <;>
    first
    | exact hs
    | exact h1
    | exact h2
    | exact h3
    | exact h4
    | exact h5
    | exact h6
    | exact h7

theorem discoverStep_preserves_noZero (dev : Nat) (fm : FeatureMap)
    (pq : Nat × List (List (List Nat))) (h : fm.noZero) :
    (discoverStep dev fm pq).noZero := by
  unfold discoverStep
  cases hg : getFeatureIndexModel dev pq.2 with
  | ok v =>
    cases v with
    | some idx =>
      exact insert_preserves_noZero fm pq.1 idx
        (getFeatureIndex_no_zero dev pq.2 idx hg) h
    | none => exact h
  | timeout n => exact h

theorem foldl_discoverStep_preserves_noZero (dev : Nat)
    (l : List (Nat × List (List (List Nat)))) (fm : FeatureMap)
    (h : fm.noZero) : (l.foldl (discoverStep dev) fm).noZero := by
  induction l generalizing fm with
  | nil => exact h
  | cons p ps ih =>
    exact ih (discoverStep dev fm p) (discoverStep_preserves_noZero dev fm p h)

/-- **C7.** A run-time feature index of 0 returned by the Root feature
means "unsupported": (1) a Root reply whose index byte is 0 makes the
`get_feature_index` matcher produce `Some(None)`; (2) the matcher never
produces a valid index equal to 0, for any inbound buffer; (3) therefore,
starting from the default (empty) map, `discover_features` never caches a
zero index for any page of the fixed capability table, whatever the
device answers. -/
theorem feature_index_zero_is_unsupported :
    (∀ dev a ps,
      gfiMatchReport dev (.long dev ROOT_FEATURE_INDEX a (0 :: ps)) = some none) ∧
    (∀ dev buf i, gfiMatcher dev buf = some (some i) → i ≠ 0) ∧
    (∀ dev pageStreams,
      (discoverFeatures dev pageStreams FeatureMap.empty).noZero) := by
  refine ⟨?_, gfiMatcher_no_zero, ?_⟩
  · intro dev a ps
    have herr : ¬ (((HidppReport.long dev ROOT_FEATURE_INDEX a
          (0 :: ps)).hidpp20_error_code dev ROOT_FEATURE_INDEX).isSome = true
        ∨ (HidppReport.long dev ROOT_FEATURE_INDEX a (0 :: ps)).is_error = true) := by
      unfold HidppReport.hidpp20_error_code HidppReport.is_error
        ROOT_FEATURE_INDEX HIDPP20_ERROR
      simp
    unfold gfiMatchReport
    rw [if_neg herr]
    show (if dev = dev ∧ ROOT_FEATURE_INDEX = ROOT_FEATURE_INDEX then
        some (if (0 :: ps).headI = 0 then none else some (0 :: ps).headI)
      else none) = some none
    rw [if_pos ⟨rfl, rfl⟩, if_pos (show (0 :: ps).headI = 0 from rfl)]
  · intro dev pageStreams
    apply foldl_discoverStep_preserves_noZero
    exact ⟨by decide, by decide, by decide, by decide, by decide, by decide, by decide⟩

/-- Witness for C7: a concrete Root reply carrying index 5 for device 1 is
accepted by the matcher, and the accepted index is non-zero. -/
theorem feature_index_zero_is_unsupported_witness :
    gfiMatcher 1 [0x11, 1, 0, 0x44, 5, 0, 0, 0, 0, 0, 0, 0, 0, 0, 0, 0, 0, 0, 0, 0]
        = some (some 5) ∧ (5 : Nat) ≠ 0 :=
  ⟨by decide,
   feature_index_zero_is_unsupported.2.1 1
     [0x11, 1, 0, 0x44, 5, 0, 0, 0, 0, 0, 0, 0, 0, 0, 0, 0, 0, 0, 0, 0] 5 (by decide)⟩

theorem parse_some_marker {buf : List Nat} {rep : HidppReport}
    (h : HidppReport.parse buf = some rep) :
    buf.headI = REPORT_ID_SHORT ∨ buf.headI = REPORT_ID_LONG := by
  unfold HidppReport.parse at h
  by_cases h7 : buf.length < 7
  · rw [if_pos h7] at h; cases h
  · by_cases hs : buf.headI = REPORT_ID_SHORT
    · exact Or.inl hs
    · by_cases hl : buf.headI = REPORT_ID_LONG ∧ 20 ≤ buf.length
      · exact Or.inr hl.1
      · rw [if_neg h7, if_neg hs, if_neg hl] at h; cases h

theorem parse_some_ne_nil {buf : List Nat} {rep : HidppReport}
    (h : HidppReport.parse buf = some rep) : 0 < buf.length := by
  unfold HidppReport.parse at h
  by_cases h7 : buf.length < 7
  · rw [if_pos h7] at h; cases h
  · omega

/-- **C10.** An in-protocol HID++ error reply observed during the Root
feature lookup is not propagated as an error: (1) the
`get_feature_index` matcher maps any parsed error report to `Some(None)`;
(2) consequently a device whose (first) reply to the lookup is an error
report makes `get_feature_index` return `Ok(None)` — exactly the result
produced by a device reporting run-time index 0. -/
theorem gfi_error_reply_gives_unsupported :
    (∀ dev rep, rep.is_error = true → gfiMatchReport dev rep = some none) ∧
    (∀ (dev : Nat) (buf : List Nat) (rep : HidppReport)
        (rest : List (List Nat)) (later : List (List (List Nat))),
      HidppReport.parse buf = some rep → rep.is_error = true →
      getFeatureIndexModel dev ((buf :: rest) :: later) = .ok none) := by
  have hmr : ∀ dev rep, rep.is_error = true → gfiMatchReport dev rep = some none := by
    intro dev rep h
    unfold gfiMatchReport
    rw [if_pos (Or.inr h)]
  refine ⟨hmr, ?_⟩
  intro dev buf rep rest later hp herr
  have hmatch : gfiMatcher dev buf = some none := by
    unfold gfiMatcher
    rw [hp]
    exact hmr dev rep herr
  have hnotnoise : ¬ isNoiseFrame buf := by
    rintro ⟨-, hns, hnl⟩
    cases parse_some_marker hp with
    | inl hh => exact hns hh
    | inr hh => exact hnl hh
  exact request_match_under_noise_and_timeout.1 (gfiMatcher dev) [] buf none rest
    later (by intro f hf; cases hf) hnotnoise hmatch

/-- Witness for C10: a concrete short error reply (`sub_id = 0x8F`) makes
the whole lookup return `Ok(None)`. -/
theorem gfi_error_reply_gives_unsupported_witness :
    getFeatureIndexModel 0 [[[0x10, 0, 0x8F, 0, 0, 5, 0]]] = .ok none :=
  gfi_error_reply_gives_unsupported.2 0 [0x10, 0, 0x8F, 0, 0, 5, 0]
    (.short 0 0x8F [0, 0, 5]) [] [] (by decide) (by decide)

/-- **C8.** Button mask round-trip: encoding logical mouse button `n`
(1-based, `1 ≤ n ≤ 16`) with `Hidpp20ButtonBinding::from_action` yields
the big-endian byte pair of the bit mask `2^(n-1)` (exactly bit `n-1`
set), and decoding it by bit position as `load_profiles` does
(`trailing_zeros + 1`) recovers exactly `n`. -/
theorem button_mask_round_trip (n : Nat) (h1 : 1 ≤ n) (h16 : n ≤ 16) :
    (Hidpp20ButtonBinding.from_action .button n).control_id =
      be16Bytes (2 ^ (n - 1)) ∧
    decode_mapping_value (Hidpp20ButtonBinding.from_action .button n) = n := by
  interval_cases n <;> exact ⟨by decide, by decide⟩

/-- Witness for C8 at `n = 5`: the encoded mask is `0x0010` big-endian and
decodes back to 5. -/
theorem button_mask_round_trip_witness :
    (Hidpp20ButtonBinding.from_action .button 5).control_id =
      be16Bytes (2 ^ 4) ∧
    decode_mapping_value (Hidpp20ButtonBinding.from_action .button 5) = 5 :=
  button_mask_round_trip 5 (by decide) (by decide)

theorem readSectorGo_spec (mem : Nat → Nat) (endOffset : Nat)
    (h16 : 16 ≤ endOffset) :
    ∀ fuel currentOffset, endOffset - currentOffset ≤ fuel →
      currentOffset ≤ endOffset →
      readSectorGo mem endOffset currentOffset =
        (List.range (endOffset - currentOffset)).map
          (fun k => mem (currentOffset + k)) := by
  intro fuel
  induction fuel with
  | zero =>
    intro cur hf _
    have hz : endOffset - cur = 0 := by omega
    rw [readSectorGo, dif_neg (by omega : ¬ cur < endOffset), hz]
    simp
  | succ f ih =>
    intro cur hf hc
    by_cases hlt : cur < endOffset
    · rw [readSectorGo, dif_pos hlt]
      by_cases hbig : 16 ≤ endOffset - cur
      · have hchunk : rsChunk endOffset cur = 16 := by
          simp only [rsChunk]; omega
        have heff : rsEff endOffset cur = cur := by
          simp only [rsEff, hchunk]
          simp
        rw [heff, hchunk, if_pos rfl]
        have htake : (memRead16 mem cur).take 16 = memRead16 mem cur := by
          apply List.take_of_length_le
          simp [memRead16]
        rw [htake, ih (cur + 16) (by omega) (by omega)]
        have hsplit : endOffset - cur = 16 + (endOffset - (cur + 16)) := by omega
        rw [hsplit, List.range_add, List.map_append]
        unfold memRead16
        congr 1
        rw [List.map_map]
        apply List.map_congr_left
        intro a _
        simp only [Function.comp_apply]
        exact congrArg mem (by omega)
      · have hchunk : rsChunk endOffset cur = endOffset - cur := by
          simp only [rsChunk]; omega
        have heff : rsEff endOffset cur = endOffset - 16 := by
          simp only [rsEff, hchunk]
          rw [if_pos (by omega)]
        have hne : rsEff endOffset cur ≠ cur := by
          rw [heff]; omega
        rw [if_neg hne, heff, hchunk,
          ih (cur + (endOffset - cur)) (by omega) (by omega)]
        have hdone : endOffset - (cur + (endOffset - cur)) = 0 := by omega
        rw [hdone]
        simp only [List.range_zero, List.map_nil, List.append_nil]
        unfold memRead16
        have h16split : (16 : Nat) = (16 - (endOffset - cur)) + (endOffset - cur) := by
          omega
        rw [h16split, List.range_add, List.map_append,
          List.drop_append_of_le_length (by simp)]
        rw [List.drop_of_length_le (by simp), List.nil_append, List.map_map]
        apply List.map_congr_left
        intro a _
        simp only [Function.comp_apply]
        exact congrArg mem (by omega)
    · rw [readSectorGo, dif_neg hlt]
      have hz : endOffset - cur = 0 := by omega
      rw [hz]
      simp

/-- **C4.** For every sector read of total size `S ≥ 16` starting at
offset 0 over any device memory, `read_sector` returns exactly the `S`
bytes of the requested range (tail chunks are rewound so the final device
read ends at the range boundary and only its trailing bytes are kept). -/
theorem read_sector_exact (mem : Nat → Nat) (S : Nat) (h : 16 ≤ S) :
    read_sector mem 0 S = (List.range S).map mem := by
  unfold read_sector
  have h0 : 0 + S = S := by omega
  rw [h0]
  rw [readSectorGo_spec mem S h S 0 (by omega) (by omega)]
  simp

/-- Witness for C4 at `S = 24` with memory `mem i = i`: the read returns
the 24 requested bytes. -/
theorem read_sector_exact_witness :
    read_sector (fun i => i) 0 24 = (List.range 24).map (fun i => i) :=
  read_sector_exact (fun i => i) 24 (by decide)

theorem foldl_set_length (off : Nat) (ps : List (Nat × Nat)) (l : List Nat) :
    (ps.foldl (fun d iv => d.set (off + iv.1) iv.2) l).length = l.length := by
  induction ps generalizing l with
  | nil => rfl
  | cons p ps ih => rw [List.foldl_cons, ih, List.length_set]

theorem writeBytes_length (data : List Nat) (off : Nat) (bytes : List Nat) :
    (writeBytes data off bytes).length = data.length :=
  foldl_set_length off bytes.enum data

theorem padTo_length (n : Nat) (raw : List Nat) : n ≤ (padTo n raw).length := by
  unfold padTo
  by_cases h : raw.length < n
  · rw [if_pos h]
    simp
    omega
  · rw [if_neg h]
    omega

theorem patchReportRate_length (p : ProfileInfo) (d : List Nat) :
    (patchReportRate p d).length = d.length := by
  unfold patchReportRate
  by_cases h : 0 < p.report_rate
  · rw [if_pos h, List.length_set]
  · rw [if_neg h]

theorem patchDefaultDpiIdx_length (p : ProfileInfo) (d : List Nat) :
    (patchDefaultDpiIdx p d).length = d.length := by
  unfold patchDefaultDpiIdx
  cases p.resolutions.findIdx? (fun r => r.is_default) with
  | some i => rw [List.length_set]
  | none => rfl

theorem patchDpiStep_length (d : List Nat) (ir : Nat × ResolutionInfo) :
    (patchDpiStep d ir).length = d.length := by
  unfold patchDpiStep
  cases ir.2.dpi with
  | unified v => rw [List.length_set, List.length_set]
  | separate x y => rfl

theorem foldl_patchDpiStep_length (l : List (Nat × ResolutionInfo)) (d : List Nat) :
    (l.foldl patchDpiStep d).length = d.length := by
  induction l generalizing d with
  | nil => rfl
  | cons ir l ih => rw [List.foldl_cons, ih, patchDpiStep_length]

theorem patchDpiList_length (p : ProfileInfo) (d : List Nat) :
    (patchDpiList p d).length = d.length :=
  foldl_patchDpiStep_length _ d

theorem patchButtonsStep_length (m : Nat) (d : List Nat) (b : ButtonInfo) :
    (patchButtonsStep m d b).length = d.length := by
  unfold patchButtonsStep
  by_cases h : b.index < m ∧ 32 + b.index * 4 + 4 ≤ d.length
  · rw [if_pos h, writeBytes_length]
  · rw [if_neg h]

theorem patchButtons_length (desc : OnboardInfo) (p : ProfileInfo) (d : List Nat) :
    (patchButtons desc p d).length = d.length := by
  unfold patchButtons
  generalize min desc.button_count 16 = m
  induction p.buttons generalizing d with
  | nil => rfl
  | cons b bs ih => rw [List.foldl_cons, ih, patchButtonsStep_length]

theorem patchCrc_length (d : List Nat) : (patchCrc d).length = d.length :=
  writeBytes_length d _ _

theorem writeBytes_two (d : List Nat) (off a b : Nat) :
    writeBytes d off [a, b] = (d.set (off + 0) a).set (off + 1) b := rfl

theorem crcBitStep_lt (c : Nat) : crcBitStep c < 65536 := by
  unfold crcBitStep
  by_cases h : c &&& 0x8000 ≠ 0
  · rw [if_pos h]; exact Nat.mod_lt _ (by omega)
  · rw [if_neg h]; exact Nat.mod_lt _ (by omega)

theorem crcByteStep_lt (c b : Nat) : crcByteStep c b < 65536 :=
  crcBitStep_lt _

theorem compute_ccitt_crc_lt (data : List Nat) : compute_ccitt_crc data < 65536 := by
  unfold compute_ccitt_crc
  have h : ∀ (l : List Nat) (c : Nat), c < 65536 → l.foldl crcByteStep c < 65536 := by
    intro l
    induction l with
    | nil => intro c hc; exact hc
    | cons b bs ih => intro c _; exact ih _ (crcByteStep_lt c b)
  exact h data 0xFFFF (by omega)

theorem patchCrc_take (d : List Nat) (h2 : 2 ≤ d.length) :
    (patchCrc d).take (d.length - 2) = d.take (d.length - 2) := by
  unfold patchCrc be16Bytes
  rw [writeBytes_two, List.set_take, List.set_take,
    List.set_eq_of_length_le, List.set_eq_of_length_le]
  · rw [List.length_take]; omega
  · rw [List.length_set, List.length_take]; omega

theorem patchCrc_stored (d : List Nat) (h2 : 2 ≤ d.length) :
    (patchCrc d).getD (d.length - 2) 0 =
      compute_ccitt_crc (d.take (d.length - 2)) / 256 % 256 ∧
    (patchCrc d).getD (d.length - 1) 0 =
      compute_ccitt_crc (d.take (d.length - 2)) % 256 := by
  unfold patchCrc be16Bytes
  rw [writeBytes_two]
  simp only [Nat.add_zero]
  constructor
  · rw [List.getD_eq_getElem?_getD,
      List.getElem?_set_ne (by omega : d.length - 2 + 1 ≠ d.length - 2),
      List.getElem?_set_eq_of_lt _ (by omega)]
    rfl
  · have h1 : d.length - 2 + 1 = d.length - 1 := by omega
    rw [h1, List.getD_eq_getElem?_getD,
      List.getElem?_set_eq_of_lt _ (by rw [List.length_set]; omega)]
    rfl

theorem verify_patchCrc (s : Nat) (d : List Nat) (h2 : 2 ≤ d.length) :
    verify_sector_crc s (patchCrc d) = true := by
  have hL : (patchCrc d).length = d.length := patchCrc_length d
  unfold verify_sector_crc
  rw [if_neg (by rw [hL]; omega : ¬ (patchCrc d).length < 2), hL,
    patchCrc_take d h2, (patchCrc_stored d h2).1, (patchCrc_stored d h2).2]
  have hlt : compute_ccitt_crc (d.take (d.length - 2)) < 65536 :=
    compute_ccitt_crc_lt _
  have : be16 (compute_ccitt_crc (d.take (d.length - 2)) / 256 % 256)
      (compute_ccitt_crc (d.take (d.length - 2)) % 256) =
      compute_ccitt_crc (d.take (d.length - 2)) := by
    unfold be16
    omega
  rw [this]
  simp

theorem patchProfileData_length (desc : OnboardInfo) (p : ProfileInfo)
    (raw : List Nat) :
    desc.sector_size ≤ (patchProfileData desc p raw).length := by
  unfold patchProfileData
  rw [patchCrc_length, patchButtons_length, patchDpiList_length,
    patchDefaultDpiIdx_length, patchReportRate_length]
  exact padTo_length _ raw

theorem dirEntriesGo_length (L : Nat) (ps : List ProfileInfo) :
    ∀ pos data, ((dirEntriesGo L ps pos data).2).length = data.length := by
  induction ps with
  | nil => intro pos data; rfl
  | cons p rest ih =>
    intro pos data
    unfold dirEntriesGo
    by_cases h : pos + 4 > L - 2
    · rw [if_pos h]
    · rw [if_neg h, ih, writeBytes_length]

theorem dirWithMarker_length (pd : Nat × List Nat) :
    (dirWithMarker pd).length = pd.2.length := by
  unfold dirWithMarker
  by_cases h : pd.1 + 4 ≤ pd.2.length - 2
  · rw [if_pos h, writeBytes_length]
  · rw [if_neg h]

theorem buildDirectory_length (profiles : List ProfileInfo) (ss : Nat) :
    (buildDirectory profiles ss).length = ss := by
  unfold buildDirectory
  rw [patchCrc_length, dirWithMarker_length, dirEntriesGo_length,
    List.length_replicate]

theorem verify_patchProfileData (desc : OnboardInfo) (p : ProfileInfo)
    (raw : List Nat) (s : Nat) (hss : 2 ≤ desc.sector_size) :
    verify_sector_crc s (patchProfileData desc p raw) = true := by
  unfold patchProfileData
  apply verify_patchCrc
  rw [patchButtons_length, patchDpiList_length, patchDefaultDpiIdx_length,
    patchReportRate_length]
  have := padTo_length desc.sector_size raw
  omega

theorem verify_buildDirectory (profiles : List ProfileInfo) (ss s : Nat)
    (h2 : 2 ≤ ss) : verify_sector_crc s (buildDirectory profiles ss) = true := by
  unfold buildDirectory
  apply verify_patchCrc
  rw [dirWithMarker_length, dirEntriesGo_length, List.length_replicate]
  omega

theorem foldl_commitProfileStep_ops (desc : OnboardInfo) (force : Bool)
    (readRes : Nat → Option (List Nat)) (writeOk : Nat → Bool) :
    ∀ (profiles : List ProfileInfo) (st : WriteLoopState),
      (profiles.foldl (commitProfileStep desc force readRes writeOk) st).ops =
        st.ops ++ profileWriteOps desc force readRes profiles := by
  intro profiles
  induction profiles with
  | nil =>
    intro st
    unfold profileWriteOps
    simp
  | cons p rest ih =>
    intro st
    rw [List.foldl_cons]
    by_cases hskip : ¬ p.is_dirty = true ∧ ¬ force = true
    · have hstep : commitProfileStep desc force readRes writeOk st p = st := by
        unfold commitProfileStep
        rw [if_pos hskip]
      have hfilter : (p.is_dirty || force) = false := by
        obtain ⟨h1, h2⟩ := hskip
        rw [Bool.not_eq_true] at h1 h2
        rw [h1, h2]
        rfl
      rw [hstep, ih st]
      unfold profileWriteOps
      rw [List.filter_cons, if_neg (by rw [hfilter]; exact Bool.false_ne_true)]
    · have hfilter : (p.is_dirty || force) = true := by
        rcases not_and_or.mp hskip with h | h
        · rw [not_not] at h; rw [h]; rfl
        · rw [not_not] at h; rw [h, Bool.or_true]
      rw [ih]
      unfold commitProfileStep
      rw [if_neg hskip]
      unfold profileWriteOps
      rw [List.filter_cons, if_pos hfilter, List.map_cons]
      simp [List.append_assoc]

theorem commitEeprom_ops_decompose (desc : OnboardInfo)
    (profiles : List ProfileInfo) (force : Bool)
    (readRes : Nat → Option (List Nat)) (writeOk : Nat → Bool) :
    (commitEeprom desc profiles force readRes writeOk).ops =
      CommitOp.setMode ONBOARD_MODE_HOST ::
        ((profileWriteOps desc force readRes profiles ++
          (if (profiles.foldl (commitProfileStep desc force readRes writeOk)
              ⟨[], 0, false, false⟩).anyWritten = true
            then [CommitOp.writeSector 0 (buildDirectory profiles desc.sector_size)]
            else [])) ++ [CommitOp.setMode ONBOARD_MODE_ONBOARD]) := by
  have hops := foldl_commitProfileStep_ops desc force readRes writeOk profiles
    ⟨[], 0, false, false⟩
  rw [List.nil_append] at hops
  unfold commitEeprom commitFinish commitDirPhase
  by_cases h : (profiles.foldl (commitProfileStep desc force readRes writeOk)
      ⟨[], 0, false, false⟩).anyWritten = true
  · rw [if_pos h, if_pos h, hops]
  · rw [if_neg h, if_neg h, hops, List.append_nil]

theorem commitProfileStep_anyWritten_mono (desc : OnboardInfo) (force : Bool)
    (readRes : Nat → Option (List Nat)) (writeOk : Nat → Bool)
    (st : WriteLoopState) (p : ProfileInfo) (h : st.anyWritten = true) :
    (commitProfileStep desc force readRes writeOk st p).anyWritten = true := by
  unfold commitProfileStep
  by_cases hs : ¬ p.is_dirty = true ∧ ¬ force = true
  · rw [if_pos hs]; exact h
  · rw [if_neg hs]
    show (st.anyWritten || writeOk st.calls) = true
    rw [h, Bool.true_or]

theorem foldl_commitProfileStep_anyWritten_mono (desc : OnboardInfo)
    (force : Bool) (readRes : Nat → Option (List Nat)) (writeOk : Nat → Bool) :
    ∀ (profiles : List ProfileInfo) (st : WriteLoopState),
      st.anyWritten = true →
      (profiles.foldl (commitProfileStep desc force readRes writeOk)
        st).anyWritten = true := by
  intro profiles
  induction profiles with
  | nil => intro st h; exact h
  | cons p rest ih =>
    intro st h
    rw [List.foldl_cons]
    exact ih _ (commitProfileStep_anyWritten_mono desc force readRes writeOk st p h)

theorem foldl_commitProfileStep_anyWritten_forced (desc : OnboardInfo)
    (readRes : Nat → Option (List Nat)) (writeOk : Nat → Bool)
    (hw : ∀ k, writeOk k = true) (profiles : List ProfileInfo)
    (st : WriteLoopState) (hne : profiles ≠ []) :
    (profiles.foldl (commitProfileStep desc true readRes writeOk)
      st).anyWritten = true := by
  cases profiles with
  | nil => exact absurd rfl hne
  | cons p rest =>
    rw [List.foldl_cons]
    apply foldl_commitProfileStep_anyWritten_mono
    unfold commitProfileStep
    rw [if_neg (by simp)]
    show (st.anyWritten || writeOk st.calls) = true
    rw [hw st.calls, Bool.or_true]

theorem commitProfileStep_hasErr (desc : OnboardInfo) (force : Bool)
    (readRes : Nat → Option (List Nat)) (writeOk : Nat → Bool)
    (hw : ∀ k, writeOk k = true) (st : WriteLoopState) (p : ProfileInfo)
    (h : st.hasErr = false) :
    (commitProfileStep desc force readRes writeOk st p).hasErr = false := by
  unfold commitProfileStep
  by_cases hs : ¬ p.is_dirty = true ∧ ¬ force = true
  · rw [if_pos hs]; exact h
  · rw [if_neg hs]
    show (st.hasErr || !writeOk st.calls) = false
    rw [h, hw st.calls]
    rfl

theorem foldl_commitProfileStep_hasErr (desc : OnboardInfo) (force : Bool)
    (readRes : Nat → Option (List Nat)) (writeOk : Nat → Bool)
    (hw : ∀ k, writeOk k = true) :
    ∀ (profiles : List ProfileInfo) (st : WriteLoopState), st.hasErr = false →
      (profiles.foldl (commitProfileStep desc force readRes writeOk)
        st).hasErr = false := by
  intro profiles
  induction profiles with
  | nil => intro st h; exact h
  | cons p rest ih =>
    intro st h
    rw [List.foldl_cons]
    exact ih _ (commitProfileStep_hasErr desc force readRes writeOk hw st p h)

theorem commitDirPhase_hasErr (profiles : List ProfileInfo)
    (desc : OnboardInfo) (writeOk : Nat → Bool) (hw : ∀ k, writeOk k = true)
    (st : WriteLoopState) (h : st.hasErr = false) :
    (commitDirPhase profiles desc writeOk st).hasErr = false := by
  unfold commitDirPhase
  by_cases ha : st.anyWritten = true
  · rw [if_pos ha]
    show (st.hasErr || !writeOk st.calls) = false
    rw [h, hw st.calls]
    rfl
  · rw [if_neg ha]; exact h

/-- **C6.** In every execution of the commit EEPROM write phase — whatever
the device answers to the sector reads and whichever sector writes fail —
the operation trace starts with set-mode(host), ends with
set-mode(onboard), and everything in between is a sector write; so every
sector write is issued after the switch to host mode and before the
switch back to onboard mode, and the device is never left in host mode. -/
theorem commit_mode_switch_brackets (desc : OnboardInfo)
    (profiles : List ProfileInfo) (force : Bool)
    (readRes : Nat → Option (List Nat)) (writeOk : Nat → Bool)
    (hss : 16 ≤ desc.sector_size) :
    ∃ body, (commitEeprom desc profiles force readRes writeOk).ops =
        CommitOp.setMode ONBOARD_MODE_HOST ::
          (body ++ [CommitOp.setMode ONBOARD_MODE_ONBOARD]) ∧
      ∀ op ∈ body, isWriteOp op := by
  refine ⟨profileWriteOps desc force readRes profiles ++
    (if (profiles.foldl (commitProfileStep desc force readRes writeOk)
        ⟨[], 0, false, false⟩).anyWritten = true
      then [CommitOp.writeSector 0 (buildDirectory profiles desc.sector_size)]
      else []),
    commitEeprom_ops_decompose desc profiles force readRes writeOk, ?_⟩
  intro op hop
  rcases List.mem_append.mp hop with h | h
  · unfold profileWriteOps at h
    obtain ⟨q, _, rfl⟩ := List.mem_map.mp h
    exact ⟨_, _, rfl⟩
  · by_cases hw : (profiles.foldl (commitProfileStep desc force readRes writeOk)
        ⟨[], 0, false, false⟩).anyWritten = true
    · rw [if_pos hw, List.mem_singleton] at h
      subst h
      exact ⟨_, _, rfl⟩
    · rw [if_neg hw] at h
      cases h

/-- Witness for C6 at a concrete state: one dirty profile, all writes
succeeding. -/
theorem commit_mode_switch_brackets_witness :
    ∃ body, (commitEeprom ⟨0, 0, 0, 1, 1, 0, 2, 32, 0⟩
        [⟨0, "", true, true, true, 0, [], 0, 0, [], [], [], []⟩] false
        (fun _ => none) (fun _ => true)).ops =
        CommitOp.setMode ONBOARD_MODE_HOST ::
          (body ++ [CommitOp.setMode ONBOARD_MODE_ONBOARD]) ∧
      ∀ op ∈ body, isWriteOp op :=
  commit_mode_switch_brackets ⟨0, 0, 0, 1, 1, 0, 2, 32, 0⟩
    [⟨0, "", true, true, true, 0, [], 0, 0, [], [], [], []⟩] false
    (fun _ => none) (fun _ => true) (by decide)

/-- **C3.** Every IPC-layer property setter of
`org.freedesktop.ratbag1.Profile` sets the profile's `is_dirty` flag; but
the flag is never cleared after a successful commit: the actor's commit
handler passes the shared `DeviceInfo` to the driver behind a read lock
(`Driver::commit` receives `&DeviceInfo`), so the shared state — including
every `is_dirty` flag — is returned unchanged, as the final concrete
evaluation shows for a dirty profile whose commit succeeds. -/
theorem is_dirty_set_by_setters_never_cleared :
    (∀ p v, (RatbagProfile.set_name p v).is_dirty = true) ∧
    (∀ p v, (RatbagProfile.set_disabled p v).is_dirty = true) ∧
    (∀ p v, (RatbagProfile.set_angle_snapping p v).is_dirty = true) ∧
    (∀ p v, (RatbagProfile.set_debounce p v).is_dirty = true) ∧
    (∀ p v, (RatbagProfile.set_report_rate p v).is_dirty = true) ∧
    (∀ p, (RatbagProfile.set_active p).is_dirty = true) ∧
    (∀ st info readRes writeOk,
      (actorCommitStep st info readRes writeOk).1 = info) ∧
    ((actorCommitStep ⟨some 1, some ⟨0, 0, 0, 1, 1, 0, 2, 32, 0⟩, false⟩
        ⟨"s", "n", "m", "f",
          [⟨0, "", true, true, true, 0, [], 0, 0, [], [], [], []⟩]⟩
        (fun _ => none) (fun _ => true)).2.2 = true ∧
      ((actorCommitStep ⟨some 1, some ⟨0, 0, 0, 1, 1, 0, 2, 32, 0⟩, false⟩
        ⟨"s", "n", "m", "f",
          [⟨0, "", true, true, true, 0, [], 0, 0, [], [], [], []⟩]⟩
        (fun _ => none) (fun _ => true)).1.profiles.headI.is_dirty = true)) := by
  refine ⟨fun _ _ => rfl, fun _ _ => rfl, fun _ _ => rfl, fun _ _ => rfl,
    fun _ _ => rfl, fun _ => rfl, fun _ _ _ _ => rfl, ?_, rfl⟩
  decide

/-- **C5.** When the directory sector fails its CRC check, `load_profiles`
still addresses every profile at the default sector `ordinal + 1` (an
address that is neither 0 nor the `0xFFFF` sentinel, so no profile is
skipped), the repair flag is raised; and a subsequent commit whose sector
writes all succeed clears the repair flag. -/
theorem directory_degradation (root : List Nat) (count : Nat) (prev : Bool)
    (desc : OnboardInfo) (profiles : List ProfileInfo)
    (readRes : Nat → Option (List Nat)) (writeOk : Nat → Bool)
    (hcrc : verify_sector_crc 0 root = false) (hcount : count ≤ 255) :
    (load_directory root count prev).profileAddrs =
      (List.range count).map (· + 1) ∧
    (load_directory root count prev).repairFlag = true ∧
    (∀ i, i < count →
      (load_directory root count prev).profileAddrs.getD i 0 ≠ 0 ∧
      (load_directory root count prev).profileAddrs.getD i 0 ≠ 0xFFFF) ∧
    ((∀ k, writeOk k = true) →
      (commitEeprom desc profiles true readRes writeOk).newRepair = false) := by
  have hload : load_directory root count prev =
      { profileAddrs := (List.range count).map (· + 1),
        profileEnabled := List.replicate count true,
        repairFlag := true } := by
    unfold load_directory
    rw [hcrc, if_neg Bool.false_ne_true]
  refine ⟨by rw [hload], by rw [hload], ?_, ?_⟩
  · intro i hi
    rw [hload]
    have hget : ((List.range count).map (· + 1)).getD i 0 = i + 1 := by
      rw [List.getD_eq_getElem?_getD, List.getElem?_map, List.getElem?_range hi]
      rfl
    rw [hget]
    constructor <;> omega
  · intro hw
    show (commitDirPhase _ _ _ _).hasErr = false
    exact commitDirPhase_hasErr _ _ _ hw _
      (foldl_commitProfileStep_hasErr _ _ _ _ hw _ _ rfl)

/-- Witness for C5: a 4-byte directory sector of zeroes fails CRC; with 2
profiles the defaults apply, and a commit with all writes succeeding
clears the flag. -/
theorem directory_degradation_witness :
    (load_directory [0, 0, 0, 0] 2 false).profileAddrs =
      (List.range 2).map (· + 1) ∧
    (load_directory [0, 0, 0, 0] 2 false).repairFlag = true ∧
    (∀ i, i < 2 →
      (load_directory [0, 0, 0, 0] 2 false).profileAddrs.getD i 0 ≠ 0 ∧
      (load_directory [0, 0, 0, 0] 2 false).profileAddrs.getD i 0 ≠ 0xFFFF) ∧
    ((∀ k : Nat, (fun _ : Nat => true) k = true) →
      (commitEeprom ⟨0, 0, 0, 2, 2, 0, 3, 32, 0⟩ [] true (fun _ => none)
        (fun _ => true)).newRepair = false) :=
  directory_degradation [0, 0, 0, 0] 2 false ⟨0, 0, 0, 2, 2, 0, 3, 32, 0⟩ []
    (fun _ => none) (fun _ => true) (by decide) (by decide)

/-- Counterexample to C2 as stated: for the device state with no profiles
and the repair flag set, the commit write phase issues no sector write at
all — in particular the directory sector is not rewritten (the trace is
just the two mode switches) — and the repair flag is even cleared without
any repair having happened. -/
theorem commit_repair_no_directory_counterexample :
    (commitEeprom ⟨0, 0, 0, 1, 1, 0, 2, 32, 0⟩ [] true (fun _ => none)
        (fun _ => true)).ops =
      [CommitOp.setMode ONBOARD_MODE_HOST,
       CommitOp.setMode ONBOARD_MODE_ONBOARD] ∧
    (commitEeprom ⟨0, 0, 0, 1, 1, 0, 2, 32, 0⟩ [] true (fun _ => none)
        (fun _ => true)).newRepair = false := by
  exact ⟨rfl, rfl⟩

/-- **C2 (amended).** For every device state, the commit EEPROM phase
issues a write of profile `p`'s sector (`p.index + 1`) iff `p` is dirty
or the repair flag forces a full rewrite; when the repair flag is set and
the device has at least one profile and the sector writes succeed, the
directory sector (sector 0) is rewritten as well; and every written
sector — profile or directory — carries a freshly recomputed CRC in its
final two bytes (it passes `verify_sector_crc`). -/
theorem commit_writes_iff_dirty_or_repair (desc : OnboardInfo)
    (profiles : List ProfileInfo) (force : Bool)
    (readRes : Nat → Option (List Nat)) (writeOk : Nat → Bool)
    (hss : 16 ≤ desc.sector_size)
    (hidx : ∀ p ∈ profiles, p.index < 255)
    (hnodup : (profiles.map (fun p => p.index)).Nodup) :
    (∀ p ∈ profiles,
      ((∃ d, CommitOp.writeSector (p.index + 1) d ∈
          (commitEeprom desc profiles force readRes writeOk).ops) ↔
        (p.is_dirty = true ∨ force = true))) ∧
    (force = true → profiles ≠ [] → (∀ k, writeOk k = true) →
      CommitOp.writeSector 0 (buildDirectory profiles desc.sector_size) ∈
        (commitEeprom desc profiles force readRes writeOk).ops) ∧
    (∀ a d, CommitOp.writeSector a d ∈
        (commitEeprom desc profiles force readRes writeOk).ops →
      verify_sector_crc a d = true) := by
  have hdec := commitEeprom_ops_decompose desc profiles force readRes writeOk
  refine ⟨?_, ?_, ?_⟩
  · intro p hp
    have hmod : (p.index + 1) % 65536 = p.index + 1 :=
      Nat.mod_eq_of_lt (by have := hidx p hp; omega)
    constructor
    · rintro ⟨d, hd⟩
      rw [hdec] at hd
      simp only [List.mem_cons, List.mem_append, List.mem_singleton] at hd
      rcases hd with hd | (hd | hd) | hd
      · exact absurd hd (by simp)
      · unfold profileWriteOps at hd
        obtain ⟨q, hq, heq⟩ := List.mem_map.mp hd
        obtain ⟨hqmem, hqcond⟩ := List.mem_filter.mp hq
        have hqmod : (q.index + 1) % 65536 = q.index + 1 :=
          Nat.mod_eq_of_lt (by have := hidx q hqmem; omega)
        have haddr : (q.index + 1) % 65536 = p.index + 1 := by
          have := congrArg (fun op => match op with
            | CommitOp.writeSector a _ => a
            | _ => 0) heq
          simpa using this
        have hqp : q = p := by
          apply List.inj_on_of_nodup_map hnodup hqmem hp
          omega
        rw [hqp] at hqcond
        cases hqd : p.is_dirty with
        | true => exact Or.inl rfl
        | false =>
          rw [hqd, Bool.false_or] at hqcond
          exact Or.inr hqcond
      · by_cases hw : (profiles.foldl
            (commitProfileStep desc force readRes writeOk)
            ⟨[], 0, false, false⟩).anyWritten = true
        · rw [if_pos hw, List.mem_singleton] at hd
          have : p.index + 1 = 0 := by
            have := congrArg (fun op => match op with
              | CommitOp.writeSector a _ => a
              | _ => 7) hd
            simpa using this
          omega
        · rw [if_neg hw] at hd
          cases hd
      · exact absurd hd (by simp)
    · intro hcond
      have hfilter : (p.is_dirty || force) = true := by
        rcases hcond with h | h
        · rw [h]; rfl
        · rw [h, Bool.or_true]
      have hmem : CommitOp.writeSector ((p.index + 1) % 65536)
          (patchProfileData desc p ((readRes ((p.index + 1) % 65536)).getD
            (List.replicate desc.sector_size 0xFF))) ∈
          (commitEeprom desc profiles force readRes writeOk).ops := by
        rw [hdec]
        apply List.mem_cons_of_mem
        apply List.mem_append_left
        apply List.mem_append_left
        unfold profileWriteOps
        apply List.mem_map.mpr
        exact ⟨p, List.mem_filter.mpr ⟨hp, hfilter⟩, rfl⟩
      rw [hmod] at hmem
      exact ⟨_, hmem⟩
  · intro hforce hne hw
    subst hforce
    have hany := foldl_commitProfileStep_anyWritten_forced desc readRes writeOk
      hw profiles ⟨[], 0, false, false⟩ hne
    rw [hdec, if_pos hany]
    apply List.mem_cons_of_mem
    apply List.mem_append_left
    apply List.mem_append_right
    exact List.mem_singleton.mpr rfl
  · intro a d hd
    rw [hdec] at hd
    simp only [List.mem_cons, List.mem_append, List.mem_singleton] at hd
    rcases hd with hd | (hd | hd) | hd
    · exact absurd hd (by simp)
    · unfold profileWriteOps at hd
      obtain ⟨q, _, heq⟩ := List.mem_map.mp hd
      have hdata : d = patchProfileData desc q
          ((readRes ((q.index + 1) % 65536)).getD
            (List.replicate desc.sector_size 0xFF)) := by
        have := congrArg (fun op => match op with
          | CommitOp.writeSector _ x => x
          | _ => []) heq
        simpa using this.symm
      rw [hdata]
      exact verify_patchProfileData desc q _ a (by omega)
    · by_cases hw : (profiles.foldl
          (commitProfileStep desc force readRes writeOk)
          ⟨[], 0, false, false⟩).anyWritten = true
      · rw [if_pos hw, List.mem_singleton] at hd
        have hdata : d = buildDirectory profiles desc.sector_size := by
          have := congrArg (fun op => match op with
            | CommitOp.writeSector _ x => x
            | _ => []) hd
          simpa using this
        rw [hdata]
        exact verify_buildDirectory profiles desc.sector_size a (by omega)
      · rw [if_neg hw] at hd
        cases hd
    · exact absurd hd (by simp)

/-- Witness for C2 (amended) at a concrete two-profile state (profile 0
dirty, profile 1 clean, no repair). -/
theorem commit_writes_iff_dirty_or_repair_witness :
    (∀ p ∈ [(⟨0, "", true, true, true, 0, [], 0, 0, [], [], [], []⟩ : ProfileInfo),
        ⟨1, "", false, true, false, 0, [], 0, 0, [], [], [], []⟩],
      ((∃ d, CommitOp.writeSector (p.index + 1) d ∈
          (commitEeprom ⟨0, 0, 0, 2, 2, 0, 3, 32, 0⟩
            [⟨0, "", true, true, true, 0, [], 0, 0, [], [], [], []⟩,
             ⟨1, "", false, true, false, 0, [], 0, 0, [], [], [], []⟩] false
            (fun _ => none) (fun _ => true)).ops) ↔
        (p.is_dirty = true ∨ false = true))) ∧
    (false = true →
      [(⟨0, "", true, true, true, 0, [], 0, 0, [], [], [], []⟩ : ProfileInfo),
       ⟨1, "", false, true, false, 0, [], 0, 0, [], [], [], []⟩] ≠ [] →
      (∀ k : Nat, (fun _ : Nat => true) k = true) →
      CommitOp.writeSector 0 (buildDirectory
        [⟨0, "", true, true, true, 0, [], 0, 0, [], [], [], []⟩,
         ⟨1, "", false, true, false, 0, [], 0, 0, [], [], [], []⟩] 32) ∈
        (commitEeprom ⟨0, 0, 0, 2, 2, 0, 3, 32, 0⟩
          [⟨0, "", true, true, true, 0, [], 0, 0, [], [], [], []⟩,
           ⟨1, "", false, true, false, 0, [], 0, 0, [], [], [], []⟩] false
          (fun _ => none) (fun _ => true)).ops) ∧
    (∀ a d, CommitOp.writeSector a d ∈
        (commitEeprom ⟨0, 0, 0, 2, 2, 0, 3, 32, 0⟩
          [⟨0, "", true, true, true, 0, [], 0, 0, [], [], [], []⟩,
           ⟨1, "", false, true, false, 0, [], 0, 0, [], [], [], []⟩] false
          (fun _ => none) (fun _ => true)).ops →
      verify_sector_crc a d = true) :=
  commit_writes_iff_dirty_or_repair ⟨0, 0, 0, 2, 2, 0, 3, 32, 0⟩
    [⟨0, "", true, true, true, 0, [], 0, 0, [], [], [], []⟩,
     ⟨1, "", false, true, false, 0, [], 0, 0, [], [], [], []⟩] false
    (fun _ => none) (fun _ => true) (by decide) (by decide) (by decide)

end Ratbag
